/-
Verification of the paneless window shim.

The repository is a thin wrapper over OS windowing primitives.  OS calls are
modeled by explicit oracle parameters describing the outcome the OS reports
(return values, last-error codes, call failures); the wrapper's own control
flow is translated faithfully from src/src/window/windows.rs and
src/src/utils/strings.rs.  A Rust panic (an unwrap on a failing OS call) is
modeled by a dedicated aborted / none outcome, distinct from a returned
Result value.
-/
import Mathlib

set_option maxRecDepth 4000

/-! ## String bridge (src/src/utils/strings.rs)

Rust strings are sequences of Unicode scalar values.  We model a string as a
list of code points; str_to_wstr is s.encode_utf16().chain(Some(0)).collect(),
i.e. the UTF-16 encoding of each scalar value followed by one zero unit. -/

/-- A Unicode scalar value: below 0x110000 and not a surrogate.  Every char of
a Rust str satisfies this. -/
def ScalarValue (c : Nat) : Prop := c < 1114112 ∧ ¬ (55296 ≤ c ∧ c < 57344)

instance (c : Nat) : Decidable (ScalarValue c) := by
  unfold ScalarValue; infer_instance

/-- UTF-16 encoding of one scalar value: BMP code points map to themselves,
the rest to a surrogate pair. -/
def encodeUtf16Char (c : Nat) : List Nat :=
  if c < 65536 then [c]
  else [55296 + (c - 65536) / 1024, 56320 + (c - 65536) % 1024]

/-- UTF-16 encoding of a whole string (the semantics of str::encode_utf16). -/
def encodeUtf16 : List Nat → List Nat
  | [] => []
  | c :: rest => encodeUtf16Char c ++ encodeUtf16 rest

/-- str_to_wstr from src/src/utils/strings.rs: the UTF-16 code units of the
input followed by a single zero unit. -/
def str_to_wstr (s : List Nat) : List Nat :=
  encodeUtf16 s ++ [0]

/-- Reference UTF-16 decoder (the spec's words: decoding the output minus the
terminator as UTF-16): non-surrogate units decode to themselves, a lead
surrogate followed by a trail surrogate decodes to the paired scalar value,
anything else is a decoding error. -/
def decodeUtf16 : List Nat → Option (List Nat)
  | [] => some []
  | [u] => if u < 55296 ∨ 57344 ≤ u then some [u] else none
  | u :: v :: rest =>
    if u < 55296 ∨ 57344 ≤ u then
      (decodeUtf16 (v :: rest)).map (fun l => u :: l)
    else if u < 56320 ∧ 56320 ≤ v ∧ v < 57344 then
      (decodeUtf16 rest).map (fun l => (65536 + (u - 55296) * 1024 + (v - 56320)) :: l)
    else none

theorem encodeUtf16Char_ne_zero (c : Nat) (_hc : ScalarValue c) (h0 : c ≠ 0) :
    ∀ u ∈ encodeUtf16Char c, u ≠ 0 := by
  intro u hu
  unfold encodeUtf16Char at hu
  split at hu
  · simp at hu; omega
  · simp at hu; omega

theorem decodeUtf16_cons_bmp (u : Nat) (h : u < 55296 ∨ 57344 ≤ u) (rest : List Nat) :
    decodeUtf16 (u :: rest) = (decodeUtf16 rest).map (fun l => u :: l) := by
  cases rest with
  | nil => simp [decodeUtf16, h]
  | cons v t => simp [decodeUtf16, h]

theorem decodeUtf16_encode_cons (c : Nat) (hc : ScalarValue c) (rest : List Nat) :
    decodeUtf16 (encodeUtf16Char c ++ rest) = (decodeUtf16 rest).map (fun l => c :: l) := by
  obtain ⟨hlt, hsur⟩ := hc
  unfold encodeUtf16Char
  split
  · exact decodeUtf16_cons_bmp c (by omega) rest
  · have hq : (c - 65536) / 1024 < 1024 := by omega
    have hr : (c - 65536) % 1024 < 1024 := Nat.mod_lt _ (by omega)
    have hval : 65536 + (55296 + (c - 65536) / 1024 - 55296) * 1024 +
        (56320 + (c - 65536) % 1024 - 56320) = c := by
      have := Nat.div_add_mod (c - 65536) 1024
      omega
    simp only [List.cons_append, decodeUtf16]
    rw [if_neg (by omega), if_pos (by omega), hval]
    rfl

theorem decodeUtf16_encodeUtf16 (s : List Nat) (hs : ∀ c ∈ s, ScalarValue c) :
    decodeUtf16 (encodeUtf16 s) = some s := by
  induction s with
  | nil => simp [encodeUtf16, decodeUtf16]
  | cons c rest ih =>
    have hc : ScalarValue c := hs c (by simp)
    have hrest : ∀ x ∈ rest, ScalarValue x := fun x hx => hs x (by simp [hx])
    simp only [encodeUtf16]
    rw [decodeUtf16_encode_cons c hc, ih hrest]
    rfl

theorem encodeUtf16_ne_zero (s : List Nat) (hs : ∀ c ∈ s, ScalarValue c)
    (h0 : ∀ c ∈ s, c ≠ 0) : 0 ∉ encodeUtf16 s := by
  induction s with
  | nil => simp [encodeUtf16]
  | cons c rest ih =>
    simp only [encodeUtf16, List.mem_append]
    push_neg
    refine ⟨fun hmem => ?_, ih (fun x hx => hs x (by simp [hx])) (fun x hx => h0 x (by simp [hx]))⟩
    exact encodeUtf16Char_ne_zero c (hs c (by simp)) (h0 c (by simp)) 0 hmem rfl

/-- C3 (amended): for every input string whose characters are Unicode scalar
values none of which is U+0000, str_to_wstr ends in a single zero code unit,
contains no other zero unit, and decoding the output minus the terminator as
UTF-16 reproduces the input. -/
theorem str_to_wstr_terminator_roundtrip (s : List Nat)
    (hs : ∀ c ∈ s, ScalarValue c) (h0 : ∀ c ∈ s, c ≠ 0) :
    (str_to_wstr s).getLast? = some 0 ∧
    (str_to_wstr s).dropLast = encodeUtf16 s ∧
    0 ∉ (str_to_wstr s).dropLast ∧
    decodeUtf16 ((str_to_wstr s).dropLast) = some s := by
  unfold str_to_wstr
  have hdrop : (encodeUtf16 s ++ [0]).dropLast = encodeUtf16 s := by
    simp [List.dropLast_concat]
  refine ⟨?_, hdrop, ?_, ?_⟩
  · simp [List.getLast?_concat]
  · rw [hdrop]; exact encodeUtf16_ne_zero s hs h0
  · rw [hdrop]; exact decodeUtf16_encodeUtf16 s hs

/-- Witness for C3's amended theorem at the concrete input "aé𝄞"
(code points 97, 233, 119070). -/
theorem str_to_wstr_terminator_roundtrip_witness :
    (∀ c ∈ [97, 233, 119070], ScalarValue c) ∧ (∀ c ∈ [97, 233, 119070], c ≠ 0) ∧
    ((str_to_wstr [97, 233, 119070]).getLast? = some 0 ∧
     (str_to_wstr [97, 233, 119070]).dropLast = encodeUtf16 [97, 233, 119070] ∧
     0 ∉ (str_to_wstr [97, 233, 119070]).dropLast ∧
     decodeUtf16 ((str_to_wstr [97, 233, 119070]).dropLast) = some [97, 233, 119070]) :=
  ⟨by decide, by decide,
   str_to_wstr_terminator_roundtrip [97, 233, 119070] (by decide) (by decide)⟩

/-- C3 counterexample: the one-character string U+0000 is a valid Rust string,
and its str_to_wstr output is [0, 0]: a zero code unit occurs outside the
terminator position, refuting the claim as stated for every input string. -/
theorem str_to_wstr_nul_embedded_zero :
    str_to_wstr [0] = [0, 0] ∧ 0 ∈ (str_to_wstr [0]).dropLast := by
  decide

/-! ## Per-window user-data accessors (src/src/window/windows.rs)

WinState models the OS-side per-window state the accessors touch: the
GWLP_USERDATA slot (a pointer-sized value, 0 meaning null) and the thread's
last-error code.  The OS primitives SetWindowLongPtrW / GetWindowLongPtrW are
modeled with an oracle: fail says whether the OS call fails, err is the error
code the failing call sets. -/

structure WinState where
  slot : Nat
  lastError : Nat
deriving Repr, DecidableEq

def setLastError (e : Nat) (s : WinState) : WinState := { s with lastError := e }

/-- OS primitive: on success returns the previous slot value and stores the new
one; on failure returns 0 and sets the last error. -/
def setWindowLongPtrW (ptr : Nat) (fail : Bool) (err : Nat) (s : WinState) : Nat × WinState :=
  if fail then (0, { s with lastError := err })
  else (s.slot, { s with slot := ptr })

/-- OS primitive: on success returns the slot value; on failure returns 0 and
sets the last error. -/
def getWindowLongPtrW (fail : Bool) (err : Nat) (s : WinState) : Nat × WinState :=
  if fail then (0, { s with lastError := err })
  else (s.slot, s)

/-- set_window_userdata from windows.rs: clear the last error, call the OS
setter, and disambiguate a zero return by re-reading the last error. -/
def set_window_userdata (ptr : Nat) (fail : Bool) (err : Nat) (s : WinState) :
    Except Nat Nat × WinState :=
  let s1 := setLastError 0 s
  let r := setWindowLongPtrW ptr fail err s1
  if r.1 = 0 then
    if r.2.lastError ≠ 0 then (Except.error r.2.lastError, r.2)
    else (Except.ok r.1, r.2)
  else (Except.ok r.1, r.2)

/-- get_window_userdata from windows.rs: clear the last error, call the OS
getter, and disambiguate a zero return by re-reading the last error. -/
def get_window_userdata (fail : Bool) (err : Nat) (s : WinState) :
    Except Nat Nat × WinState :=
  let s1 := setLastError 0 s
  let r := getWindowLongPtrW fail err s1
  if r.1 = 0 then
    if r.2.lastError ≠ 0 then (Except.error r.2.lastError, r.2)
    else (Except.ok r.1, r.2)
  else (Except.ok r.1, r.2)

/-- C6: both accessors clear the last-error state before the underlying call
(so a stale error code never changes the outcome), report Err with the OS
error code exactly when the underlying call fails with a nonzero code, report
Ok 0 when the call legitimately returns zero with a clear error state, and
report Ok with the returned value on any nonzero return. -/
theorem userdata_zero_return_disambiguation (s : WinState) (ptr : Nat) (fail : Bool) (err : Nat) :
    ((set_window_userdata ptr fail err s).1 =
       (set_window_userdata ptr fail err { s with lastError := 0 }).1)
  ∧ (fail = true → err ≠ 0 → (set_window_userdata ptr fail err s).1 = Except.error err)
  ∧ (fail = false → s.slot = 0 → (set_window_userdata ptr fail err s).1 = Except.ok 0)
  ∧ (fail = false → s.slot ≠ 0 → (set_window_userdata ptr fail err s).1 = Except.ok s.slot)
  ∧ ((get_window_userdata fail err s).1 =
       (get_window_userdata fail err { s with lastError := 0 }).1)
  ∧ (fail = true → err ≠ 0 → (get_window_userdata fail err s).1 = Except.error err)
  ∧ (fail = false → s.slot = 0 → (get_window_userdata fail err s).1 = Except.ok 0)
  ∧ (fail = false → s.slot ≠ 0 → (get_window_userdata fail err s).1 = Except.ok s.slot) := by
  cases fail <;>
    refine ⟨by simp [set_window_userdata, setWindowLongPtrW, setLastError],
      ?_, ?_, ?_,
      by simp [get_window_userdata, getWindowLongPtrW, setLastError],
      ?_, ?_, ?_⟩ <;>
    intro h1 h2 <;>
    simp_all [set_window_userdata, get_window_userdata, setWindowLongPtrW,
      getWindowLongPtrW, setLastError]

/-- Witness for C6 at concrete inputs: a failing set with error code 5 and a
stale nonzero last error reports Err 5; a successful get on a window whose
slot is 0 (with a stale last error) reports Ok 0. -/
theorem userdata_zero_return_disambiguation_witness :
    (set_window_userdata 7 true 5 ⟨0, 9⟩).1 = Except.error 5 ∧
    (get_window_userdata false 3 ⟨0, 9⟩).1 = Except.ok 0 :=
  ⟨(userdata_zero_return_disambiguation ⟨0, 9⟩ 7 true 5).2.1 rfl (by decide),
   (userdata_zero_return_disambiguation ⟨0, 9⟩ 7 false 3).2.2.2.2.2.2.1 rfl rfl⟩

/-! ## Message loop (WindowsWindow::window_loop)

The OS message source is modeled as a finite list of per-iteration outcomes:
either GetMessageW fails (negative return, the loop panics) or a message is
delivered together with the outcome of TranslateMessage, whose result the
loop discards.  An exhausted list models the loop blocking on the next
message.  The loop result is the terminal outcome paired with the list of
messages dispatched to DispatchMessageW, in order. -/

def WM_QUIT : Nat := 18

structure MsgRec where
  message : Nat
  wParam : Nat
deriving Repr, DecidableEq

inductive LoopInput where
  | failed (e : String)
  | delivered (m : MsgRec) (translateOk : Bool)
deriving Repr, DecidableEq

inductive LoopOutcome where
  | exited (code : Int)
  | aborted (e : String)
  | blocked
deriving Repr, DecidableEq

/-- The usize-to-i32 cast applied to the quit message's wParam. -/
def wrapI32 (n : Nat) : Int :=
  if n % 4294967296 < 2147483648 then ((n % 4294967296 : Nat) : Int)
  else ((n % 4294967296 : Nat) : Int) - 4294967296

/-- window_loop from windows.rs: retrieve, exit the process on WM_QUIT with
the carried code, otherwise translate (result discarded) and dispatch. -/
def window_loop : List LoopInput → LoopOutcome × List MsgRec
  | [] => (LoopOutcome.blocked, [])
  | LoopInput.failed e :: _ => (LoopOutcome.aborted ("Failed getting next message: " ++ e), [])
  | LoopInput.delivered m _ :: rest =>
    if m.message = WM_QUIT then (LoopOutcome.exited (wrapI32 m.wParam), [])
    else
      let r := window_loop rest
      (r.1, m :: r.2)

/-- C2: a retrieved quit message ends the process with the carried exit value
(as a 32-bit value; in particular status N for any N below 2^31, so status 0
for payload 0), and nothing further is dispatched; any non-quit message is
dispatched (whatever TranslateMessage reported) and the loop continues on the
rest of the stream. -/
theorem window_loop_quit_exits (m : MsgRec) (t : Bool) (rest : List LoopInput) :
    (m.message = WM_QUIT →
      window_loop (LoopInput.delivered m t :: rest) =
        (LoopOutcome.exited (wrapI32 m.wParam), []))
  ∧ (∀ N : Nat, N < 2147483648 → m.message = WM_QUIT → m.wParam = N →
      (window_loop (LoopInput.delivered m t :: rest)).1 = LoopOutcome.exited N)
  ∧ (m.message ≠ WM_QUIT →
      window_loop (LoopInput.delivered m t :: rest) =
        ((window_loop rest).1, m :: (window_loop rest).2)) := by
  refine ⟨fun hq => by simp [window_loop, hq], fun N hN hq hw => ?_, fun hnq => ?_⟩
  · have hmod : N % 4294967296 = N := Nat.mod_eq_of_lt (by omega)
    simp [window_loop, hq, hw, wrapI32, hmod, hN]
  · simp [window_loop, hnq]

/-- Witness for C2: a synthetic quit message with payload 42 ends the loop
with exit status 42; a non-quit message (code 15) is dispatched and the empty
remainder leaves the loop blocked. -/
theorem window_loop_quit_exits_witness :
    ((⟨18, 42⟩ : MsgRec).message = WM_QUIT ∧
      window_loop [LoopInput.delivered ⟨18, 42⟩ true] = (LoopOutcome.exited 42, [])) ∧
    ((⟨15, 0⟩ : MsgRec).message ≠ WM_QUIT ∧
      window_loop [LoopInput.delivered ⟨15, 0⟩ false] =
        (LoopOutcome.blocked, [⟨15, 0⟩])) := by
  refine ⟨⟨rfl, ?_⟩, ⟨by decide, ?_⟩⟩
  · rw [(window_loop_quit_exits ⟨18, 42⟩ true []).1 rfl]
    decide
  · rw [(window_loop_quit_exits ⟨15, 0⟩ false []).2.2 (by decide)]
    decide

/-! ## Window initializer (WindowsWindow::init_instance)

init_instance allocates the heap payload (Box::new(5)), then issues one
CreateWindowExW request; CreateRequest records the request's geometry and
style arguments exactly as the source passes them.  The subsequent unwrap on
window creation, the ShowWindow nonzero check, and the unwrap on UpdateWindow
are the three abort points, driven by an oracle of OS outcomes. -/

def WS_EX_RIGHTSCROLLBAR : Nat := 0

def WS_OVERLAPPEDWINDOW : Nat := 13565952

def CW_USEDEFAULT : Int := -2147483648

structure CreateRequest where
  dwExStyle : Nat
  style : Nat
  x : Int
  y : Int
  width : Int
  height : Int
  hasParent : Bool
  hasMenu : Bool
deriving Repr, DecidableEq

/-- The CreateWindowExW argument list built in init_instance: extended style
WS_EX_RIGHTSCROLLBAR, style WS_OVERLAPPEDWINDOW, x = CW_USEDEFAULT, y = 0,
width = width.unwrap_or(CW_USEDEFAULT), height = height.unwrap_or(0), no
parent, no menu. -/
def createRequest (width height : Option Int) : CreateRequest :=
  { dwExStyle := WS_EX_RIGHTSCROLLBAR
    style := WS_OVERLAPPEDWINDOW
    x := CW_USEDEFAULT
    y := 0
    width := width.getD CW_USEDEFAULT
    height := height.getD 0
    hasParent := false
    hasMenu := false }

inductive InitOutcome where
  | abortedCreate
  | abortedShow
  | abortedUpdate
  | ok
deriving Repr, DecidableEq

/-- OS outcomes consumed by init_instance: whether CreateWindowExW returns a
handle, the BOOL returned by ShowWindow, whether UpdateWindow succeeds. -/
structure InitOracle where
  createOk : Bool
  showCode : Int
  updateOk : Bool
deriving Repr, DecidableEq

/-- init_instance from windows.rs: build the creation request, abort on a
failed creation (unwrap), abort when ShowWindow returns nonzero, abort on a
failed UpdateWindow (unwrap), otherwise finish normally. -/
def init_instance (width height : Option Int) (o : InitOracle) :
    CreateRequest × InitOutcome :=
  let req := createRequest width height
  if o.createOk = false then (req, InitOutcome.abortedCreate)
  else if o.showCode ≠ 0 then (req, InitOutcome.abortedShow)
  else if o.updateOk = false then (req, InitOutcome.abortedUpdate)
  else (req, InitOutcome.ok)

theorem init_instance_fst (width height : Option Int) (o : InitOracle) :
    (init_instance width height o).1 = createRequest width height := by
  unfold init_instance
  split
  · rfl
  · split
    · rfl
    · split <;> rfl

/-- C4: the creation request passes effective height 0 whenever height is
None, passes the OS default width (CW_USEDEFAULT) whenever width is None, and
with width = some 800, height = None requests width 800 and height 0. -/
theorem init_instance_size_defaults :
    (∀ (w : Option Int) (o : InitOracle), ((init_instance w none o).1).height = 0)
  ∧ (∀ (h : Option Int) (o : InitOracle), ((init_instance none h o).1).width = CW_USEDEFAULT)
  ∧ (∀ o : InitOracle, ((init_instance (some 800) none o).1).width = 800
      ∧ ((init_instance (some 800) none o).1).height = 0) := by
  refine ⟨fun w o => ?_, fun h o => ?_, fun o => ⟨?_, ?_⟩⟩ <;>
    simp [init_instance_fst, createRequest]

/-- C7: given the creation call succeeded, init_instance aborts at the
ShowWindow check exactly when ShowWindow returns a nonzero status, and on a
zero status continues normally to the UpdateWindow step. -/
theorem show_window_nonzero_fatal (w h : Option Int) (o : InitOracle)
    (hc : o.createOk = true) :
    ((init_instance w h o).2 = InitOutcome.abortedShow ↔ o.showCode ≠ 0)
  ∧ (o.showCode = 0 → (init_instance w h o).2 =
      (if o.updateOk then InitOutcome.ok else InitOutcome.abortedUpdate)) := by
  rcases eq_or_ne o.showCode 0 with h0 | h0 <;>
    cases hu : o.updateOk <;>
    simp [init_instance, hc, h0, hu]

/-- Witness for C7: with a successful creation and ShowWindow returning 1,
init_instance aborts at the ShowWindow check. -/
theorem show_window_nonzero_fatal_witness :
    ((⟨true, 1, true⟩ : InitOracle).createOk = true) ∧
    ((init_instance none none ⟨true, 1, true⟩).2 = InitOutcome.abortedShow ↔
      (⟨true, 1, true⟩ : InitOracle).showCode ≠ 0) :=
  ⟨rfl, (show_window_nonzero_fatal none none ⟨true, 1, true⟩ rfl).1⟩

/-! ## Class registrar (WindowsWindow::register_class, load_default_cursor)

The windows-crate LoadCursorW call either returns Err (the OS call failed) or
Ok with a handle; load_default_cursor calls unwrap on that result — a crate
Err therefore aborts (Rust panic) — and then bails with a Result error when
the returned handle is invalid (null).  register_class propagates the
cursor-load Result and then fails when RegisterClassW returns atom 0. -/

inductive CursorLoadResult where
  | crateErr (e : Nat)
  | crateOk (handle : Nat)
deriving Repr, DecidableEq

/-- Either a Rust panic (an unwrap on a failing call) or a returned value. -/
inductive RunResult (α : Type) where
  | aborted (msg : String)
  | ret (a : α)
deriving Repr, DecidableEq

/-- load_default_cursor from windows.rs: unwrap the crate call's Result
(aborting on Err), then return Err when the handle is invalid (null), Ok with
the handle otherwise. -/
def load_default_cursor (r : CursorLoadResult) : RunResult (Except String Nat) :=
  match r with
  | CursorLoadResult.crateErr _ => RunResult.aborted "called unwrap on an Err value"
  | CursorLoadResult.crateOk h =>
    if h = 0 then RunResult.ret (Except.error "Failed to load predefined cursor")
    else RunResult.ret (Except.ok h)

/-- register_class from windows.rs: propagate any cursor-load error, register
the class, and return Err when the OS reports atom 0. -/
def register_class (cursor : CursorLoadResult) (registerAtom : Nat) :
    RunResult (Except String Unit) :=
  match load_default_cursor cursor with
  | RunResult.aborted m => RunResult.aborted m
  | RunResult.ret (Except.error e) => RunResult.ret (Except.error e)
  | RunResult.ret (Except.ok _) =>
    if registerAtom = 0 then
      RunResult.ret (Except.error "Could not register the window class")
    else RunResult.ret (Except.ok ())

def isErrReturn {α : Type} : RunResult (Except String α) → Bool
  | RunResult.ret (Except.error _) => true
  | _ => false

/-- C5 counterexample: when the cursor-load call itself reports failure (the
crate-level Err outcome), register_class does not return an Err result — the
unwrap inside load_default_cursor aborts the process instead, refuting the
claim that every cursor-load failure is reported via Result. -/
theorem register_class_cursor_err_aborts :
    register_class (CursorLoadResult.crateErr 2) 1 =
      RunResult.aborted "called unwrap on an Err value"
  ∧ isErrReturn (register_class (CursorLoadResult.crateErr 2) 1) = false := by
  constructor <;> rfl

/-- C5 (amended): a cursor load that yields an invalid (null) handle makes
register_class return Err (never continuing with a null cursor), while a
cursor-load call that itself returns a crate-level Err aborts the process via
the unwrap; with a valid cursor and a nonzero registration atom, registration
succeeds. -/
theorem register_class_cursor_failure_paths :
    (∀ atom : Nat, register_class (CursorLoadResult.crateOk 0) atom =
      RunResult.ret (Except.error "Failed to load predefined cursor"))
  ∧ (∀ e atom : Nat, register_class (CursorLoadResult.crateErr e) atom =
      RunResult.aborted "called unwrap on an Err value")
  ∧ (∀ h atom : Nat, h ≠ 0 → atom ≠ 0 →
      register_class (CursorLoadResult.crateOk h) atom = RunResult.ret (Except.ok ())) := by
  refine ⟨fun atom => rfl, fun e atom => rfl, fun h atom hh ha => ?_⟩
  simp [register_class, load_default_cursor, hh, ha]

/-- Witness for C5's amended theorem at handle 7 and atom 3. -/
theorem register_class_cursor_failure_paths_witness :
    (7 : Nat) ≠ 0 ∧ (3 : Nat) ≠ 0 ∧
    register_class (CursorLoadResult.crateOk 7) 3 = RunResult.ret (Except.ok ()) :=
  ⟨by decide, by decide,
   register_class_cursor_failure_paths.2.2 7 3 (by decide) (by decide)⟩

/-! ## Paint helpers (begin_paint, end_paint, fill_rect_with_sys_color,
do_some_painting)

PaintOracle carries the OS outcomes a paint cycle consumes: whether
BeginPaint returns an invalid device context (and the error code read back),
the device context and paint-struct data handed to the closure, and whether
EndPaint succeeds (its unwrap aborts otherwise).  PaintRun records whether
end_paint was invoked and the returned value (none when the cycle aborted in
end_paint). -/

structure Rect where
  left : Int
  top : Int
  right : Int
  bottom : Int
deriving Repr, DecidableEq

def COLOR_WINDOW : Nat := 5

structure PaintOracle where
  beginFail : Bool
  beginErr : Nat
  hdc : Nat
  fErase : Bool
  rcPaint : Rect
  endOk : Bool
deriving Repr, DecidableEq

/-- begin_paint from windows.rs: Err with the last-error code when BeginPaint
returns an invalid device context, Ok with the context and paint data
otherwise. -/
def begin_paint (o : PaintOracle) : Except Nat (Nat × Bool × Rect) :=
  if o.beginFail then Except.error o.beginErr
  else Except.ok (o.hdc, o.fErase, o.rcPaint)

/-- fill_rect_with_sys_color from windows.rs: FillRect with the system brush
color + 1; a zero return is reported as a unit error. -/
def fill_rect_with_sys_color (fillRet : Nat) (_hdc : Nat) (_rect : Rect) (color : Nat) :
    Except Unit Unit :=
  let _brush := color + 1
  if fillRet ≠ 0 then Except.ok () else Except.error ()

structure PaintRun (T : Type) where
  endInvoked : Bool
  result : Option (Except Nat T)
deriving Repr

/-- do_some_painting from windows.rs: propagate a begin_paint error without
invoking end_paint; otherwise run the closure, invoke end_paint (whose unwrap
aborts when EndPaint fails), and return the closure's result. -/
def do_some_painting {T : Type} (o : PaintOracle) (f : Nat → Bool → Rect → Except Nat T) :
    PaintRun T :=
  match begin_paint o with
  | Except.error e => ⟨false, some (Except.error e)⟩
  | Except.ok (hdc, fErase, rcPaint) =>
    let output := f hdc fErase rcPaint
    if o.endOk then ⟨true, some output⟩ else ⟨true, none⟩

theorem do_some_painting_result_isSome {T : Type} (o : PaintOracle)
    (f : Nat → Bool → Rect → Except Nat T) (he : o.endOk = true) :
    ((do_some_painting o f).result).isSome = true := by
  cases hb : o.beginFail <;> simp [do_some_painting, begin_paint, hb, he]

/-- C9: whenever begin_paint succeeds, end_paint is invoked regardless of the
closure's result, and (when end_paint itself succeeds) do_some_painting's
result is exactly the closure's result; when begin_paint fails, its error is
returned and end_paint is not invoked. -/
theorem do_some_painting_bracketing {T : Type} (o : PaintOracle)
    (f : Nat → Bool → Rect → Except Nat T) :
    (o.beginFail = false →
      (do_some_painting o f).endInvoked = true
      ∧ (o.endOk = true →
          (do_some_painting o f).result = some (f o.hdc o.fErase o.rcPaint)))
  ∧ (o.beginFail = true →
      (do_some_painting o f).endInvoked = false
      ∧ (do_some_painting o f).result = some (Except.error o.beginErr)) := by
  cases hb : o.beginFail <;> cases he : o.endOk <;>
    simp [do_some_painting, begin_paint, hb, he]

/-- Witness for C9: with a successful begin and end, do_some_painting returns
exactly the result of a closure that fails with error 7, and end_paint was
invoked; with a failing begin (error 9), the error is returned and end_paint
was not invoked. -/
theorem do_some_painting_bracketing_witness :
    ((⟨false, 0, 4, true, ⟨0, 0, 10, 10⟩, true⟩ : PaintOracle).beginFail = false ∧
      (do_some_painting ⟨false, 0, 4, true, ⟨0, 0, 10, 10⟩, true⟩
        (fun _ _ _ => (Except.error 7 : Except Nat Nat))).endInvoked = true ∧
      (do_some_painting ⟨false, 0, 4, true, ⟨0, 0, 10, 10⟩, true⟩
        (fun _ _ _ => (Except.error 7 : Except Nat Nat))).result = some (Except.error 7)) ∧
    ((⟨true, 9, 4, true, ⟨0, 0, 10, 10⟩, true⟩ : PaintOracle).beginFail = true ∧
      (do_some_painting ⟨true, 9, 4, true, ⟨0, 0, 10, 10⟩, true⟩
        (fun _ _ _ => (Except.ok 3 : Except Nat Nat))).endInvoked = false ∧
      (do_some_painting ⟨true, 9, 4, true, ⟨0, 0, 10, 10⟩, true⟩
        (fun _ _ _ => (Except.ok 3 : Except Nat Nat))).result = some (Except.error 9)) := by
  constructor
  · refine ⟨rfl, ?_, ?_⟩
    · exact ((do_some_painting_bracketing ⟨false, 0, 4, true, ⟨0, 0, 10, 10⟩, true⟩
        (fun _ _ _ => (Except.error 7 : Except Nat Nat))).1 rfl).1
    · exact ((do_some_painting_bracketing ⟨false, 0, 4, true, ⟨0, 0, 10, 10⟩, true⟩
        (fun _ _ _ => (Except.error 7 : Except Nat Nat))).1 rfl).2 rfl
  · refine ⟨rfl, ?_, ?_⟩
    · exact ((do_some_painting_bracketing ⟨true, 9, 4, true, ⟨0, 0, 10, 10⟩, true⟩
        (fun _ _ _ => (Except.ok 3 : Except Nat Nat))).2 rfl).1
    · exact ((do_some_painting_bracketing ⟨true, 9, 4, true, ⟨0, 0, 10, 10⟩, true⟩
        (fun _ _ _ => (Except.ok 3 : Except Nat Nat))).2 rfl).2

/-! ## Message procedure (WindowsWindow::window_procedure)

SysState carries everything a dispatch step can touch: the per-window OS
state (user-data slot and last error), whether the heap payload allocated in
init_instance is still live, how many times a payload has been reclaimed, the
posted quit code, and the window title.  Oracle bundles the OS outcomes one
delivered message can consume.  A step returns the new state and the LRESULT,
with ret = none modeling a Rust panic inside the callback. -/

structure CreateStructM where
  lpszName : List Nat
  lpCreateParams : Nat
deriving Repr, DecidableEq

inductive Msg where
  | nccreate (cs : Option CreateStructM)
  | close
  | destroy
  | paint
  | other (code : Nat)
deriving Repr, DecidableEq

structure Oracle where
  setFail : Bool
  setErr : Nat
  getFail : Bool
  getErr : Nat
  setTextOk : Bool
  paint : PaintOracle
  fillRet : Nat
  defRet : Int
deriving Repr, DecidableEq

structure SysState where
  win : WinState
  payloadLive : Bool
  freeCount : Nat
  quitPosted : Option Int
  title : Option (List Nat)
deriving Repr, DecidableEq

structure WndOut where
  st : SysState
  ret : Option Int
deriving Repr, DecidableEq

def isOkE {ε α : Type} : Except ε α → Bool
  | Except.ok _ => true
  | Except.error _ => false

/-- The WM_DESTROY branch reclaims exactly when get_window_userdata returned
Ok with a non-null pointer. -/
def retrievedNonNull : Except Nat Nat → Bool
  | Except.ok p => p != 0
  | Except.error _ => false

/-- window_procedure from windows.rs.  WM_NCCREATE: return 0 on a null
CREATESTRUCTW, otherwise set the title (SetWindowTextW's unwrap aborts on
failure) and store the payload pointer, returning is_ok as the LRESULT.
WM_CLOSE: request destruction, return 0.  WM_DESTROY: retrieve the user-data
pointer, reclaim the payload when it is Ok and non-null (an Err is only
logged), post a quit message with code 0, return 0.  WM_PAINT: run the paint
cycle whose closure fills the rectangle and discards the fill result; any
painting error is logged; return 0 (none only when end_paint's unwrap
aborts).  Everything else goes to DefWindowProcW. -/
def window_procedure (st : SysState) (o : Oracle) (m : Msg) : WndOut :=
  match m with
  | Msg.nccreate none => ⟨st, some 0⟩
  | Msg.nccreate (some cs) =>
    if o.setTextOk then
      let r := set_window_userdata cs.lpCreateParams o.setFail o.setErr st.win
      ⟨{ st with title := some cs.lpszName, win := r.2 },
        some (if isOkE r.1 then 1 else 0)⟩
    else ⟨st, none⟩
  | Msg.close => ⟨st, some 0⟩
  | Msg.destroy =>
    let r := get_window_userdata o.getFail o.getErr st.win
    let st1 := { st with win := r.2 }
    let st2 :=
      if retrievedNonNull r.1 then
        { st1 with payloadLive := false, freeCount := st1.freeCount + 1 }
      else st1
    ⟨{ st2 with quitPosted := some 0 }, some 0⟩
  | Msg.paint =>
    let pr := do_some_painting o.paint (fun hdc _ rect =>
      let _ := fill_rect_with_sys_color o.fillRet hdc rect COLOR_WINDOW
      (Except.ok () : Except Nat Unit))
    ⟨st, if pr.result.isSome then some 0 else none⟩
  | Msg.other _ => ⟨st, some o.defRet⟩

/-- One window lifecycle is a list of dispatched messages with their OS
outcomes; the run stops early when a step aborts (ret = none). -/
def runWndproc (st : SysState) : List (Oracle × Msg) → SysState
  | [] => st
  | om :: rest =>
    let out := window_procedure st om.1 om.2
    match out.ret with
    | none => out.st
    | some _ => runWndproc out.st rest

def isDestroy : Msg → Bool
  | Msg.destroy => true
  | _ => false

def countDestroy : List (Oracle × Msg) → Nat
  | [] => 0
  | om :: rest => (if isDestroy om.2 then 1 else 0) + countDestroy rest

/-- Messages a lifecycle can deliver between attachment and destruction. -/
def isMid : Msg → Bool
  | Msg.close => true
  | Msg.paint => true
  | Msg.other _ => true
  | _ => false

/-- The state right after init_instance ran: the payload has been allocated
(Box::new(5), leaked for the window's lifetime), nothing is stored in the
user-data slot yet, nothing has been reclaimed. -/
def initState (le : Nat) : SysState :=
  { win := { slot := 0, lastError := le }
    payloadLive := true
    freeCount := 0
    quitPosted := none
    title := none }

theorem wndproc_freeCount_of_ne_destroy (st : SysState) (o : Oracle) (m : Msg)
    (h : m ≠ Msg.destroy) : (window_procedure st o m).st.freeCount = st.freeCount := by
  cases m with
  | nccreate cs =>
    cases cs with
    | none => rfl
    | some c => by_cases ht : o.setTextOk <;> simp [window_procedure, ht]
  | close => rfl
  | destroy => exact absurd rfl h
  | paint => rfl
  | other c => rfl

theorem wndproc_destroy_freeCount (st : SysState) (o : Oracle) :
    (window_procedure st o Msg.destroy).st.freeCount = st.freeCount +
      (if retrievedNonNull (get_window_userdata o.getFail o.getErr st.win).1
        then 1 else 0) := by
  by_cases h : retrievedNonNull (get_window_userdata o.getFail o.getErr st.win).1 <;>
    simp [window_procedure, h]

theorem wndproc_mid_step (st : SysState) (o : Oracle) (m : Msg)
    (hm : isMid m = true) (he : o.paint.endOk = true) :
    (window_procedure st o m).st = st ∧ (window_procedure st o m).ret.isSome = true := by
  cases m with
  | nccreate cs => simp [isMid] at hm
  | close => exact ⟨rfl, rfl⟩
  | destroy => simp [isMid] at hm
  | paint =>
    refine ⟨rfl, ?_⟩
    simp [window_procedure, do_some_painting_result_isSome _ _ he]
  | other c => exact ⟨rfl, rfl⟩

theorem runWndproc_mids (mids : List (Oracle × Msg))
    (h : ∀ om ∈ mids, isMid om.2 = true ∧ om.1.paint.endOk = true)
    (st : SysState) (tail : List (Oracle × Msg)) :
    runWndproc st (mids ++ tail) = runWndproc st tail := by
  induction mids with
  | nil => rfl
  | cons om rest ih =>
    obtain ⟨hm, he⟩ := h om (by simp)
    obtain ⟨hst, hret⟩ := wndproc_mid_step st om.1 om.2 hm he
    obtain ⟨r, hr⟩ := Option.isSome_iff_exists.mp hret
    simp only [List.cons_append, runWndproc, hr, hst]
    exact ih (fun x hx => h x (by simp [hx]))

theorem runWndproc_freeCount_le (tr : List (Oracle × Msg)) (st : SysState) :
    (runWndproc st tr).freeCount ≤ st.freeCount + countDestroy tr := by
  induction tr generalizing st with
  | nil => simp [runWndproc, countDestroy]
  | cons om rest ih =>
    have hstep : (window_procedure st om.1 om.2).st.freeCount ≤
        st.freeCount + (if isDestroy om.2 then 1 else 0) := by
      by_cases hd : om.2 = Msg.destroy
      · rw [hd, wndproc_destroy_freeCount]
        simp only [hd, isDestroy, if_pos]
        split <;> omega
      · rw [wndproc_freeCount_of_ne_destroy st om.1 om.2 hd]
        omega
    cases hret : (window_procedure st om.1 om.2).ret with
    | none =>
      simp only [runWndproc, countDestroy, hret]
      omega
    | some r =>
      have hrec := ih (window_procedure st om.1 om.2).st
      simp only [runWndproc, countDestroy, hret]
      omega

theorem runWndproc_cons_some (st : SysState) (om : Oracle × Msg)
    (tr : List (Oracle × Msg)) (st' : SysState) (r : Int)
    (h : window_procedure st om.1 om.2 = ⟨st', some r⟩) :
    runWndproc st (om :: tr) = runWndproc st' tr := by
  simp only [runWndproc, h]

/-- C1: along a window lifecycle — the payload allocated by init_instance,
the WM_NCCREATE step attaching it (title set succeeds, the user-data store
succeeds), any run of non-lifecycle messages, then the single WM_DESTROY the
OS delivers with a successful user-data retrieval — the payload is reclaimed
exactly once and is no longer live afterwards; moreover no branch other than
WM_DESTROY ever changes the reclaim count, the WM_DESTROY branch reclaims
exactly when the retrieved pointer is Ok and non-null, and over any message
list the reclaim count grows by at most the number of WM_DESTROY messages
(so one destroy per window can never free twice). -/
theorem payload_reclaimed_exactly_once
    (p : Nat) (hp : p ≠ 0) (le : Nat) (nm : List Nat)
    (o1 : Oracle) (h1t : o1.setTextOk = true) (h1s : o1.setFail = false)
    (o2 : Oracle) (h2g : o2.getFail = false)
    (mids : List (Oracle × Msg))
    (hmid : ∀ om ∈ mids, isMid om.2 = true ∧ om.1.paint.endOk = true) :
    ((runWndproc (initState le)
        ((o1, Msg.nccreate (some ⟨nm, p⟩)) :: (mids ++ [(o2, Msg.destroy)]))).freeCount = 1
      ∧ (runWndproc (initState le)
        ((o1, Msg.nccreate (some ⟨nm, p⟩)) :: (mids ++ [(o2, Msg.destroy)]))).payloadLive
          = false)
  ∧ (∀ (st : SysState) (o : Oracle) (m : Msg), m ≠ Msg.destroy →
      (window_procedure st o m).st.freeCount = st.freeCount)
  ∧ (∀ (st : SysState) (o : Oracle),
      (window_procedure st o Msg.destroy).st.freeCount = st.freeCount +
        (if retrievedNonNull (get_window_userdata o.getFail o.getErr st.win).1
          then 1 else 0))
  ∧ (∀ (st : SysState) (tr : List (Oracle × Msg)),
      (runWndproc st tr).freeCount ≤ st.freeCount + countDestroy tr) := by
  have hstep1 : window_procedure (initState le) o1 (Msg.nccreate (some ⟨nm, p⟩)) =
      ⟨⟨⟨p, 0⟩, true, 0, none, some nm⟩, some 1⟩ := by
    simp [window_procedure, h1t, h1s, set_window_userdata, setWindowLongPtrW,
      setLastError, isOkE, initState]
  have hstep2 : window_procedure ⟨⟨p, 0⟩, true, 0, none, some nm⟩ o2 Msg.destroy =
      ⟨⟨⟨p, 0⟩, false, 1, some 0, some nm⟩, some 0⟩ := by
    simp [window_procedure, h2g, get_window_userdata, getWindowLongPtrW,
      setLastError, retrievedNonNull, hp]
  refine ⟨?_, fun st o m hm => wndproc_freeCount_of_ne_destroy st o m hm,
    fun st o => wndproc_destroy_freeCount st o,
    fun st tr => runWndproc_freeCount_le tr st⟩
  rw [runWndproc_cons_some _ _ _ _ _ hstep1, runWndproc_mids mids hmid,
    runWndproc_cons_some _ _ _ _ _ hstep2]
  exact ⟨rfl, rfl⟩

/-- Witness for C1: a concrete lifecycle (payload at address 1000, one close
message between attach and destroy) reclaims the payload exactly once. -/
theorem payload_reclaimed_exactly_once_witness :
    (1000 : Nat) ≠ 0 ∧
    (∀ om ∈ [((⟨false, 0, false, 0, true, ⟨false, 0, 1, false, ⟨0, 0, 0, 0⟩, true⟩,
        1, 0⟩ : Oracle), Msg.close)], isMid om.2 = true ∧ om.1.paint.endOk = true) ∧
    (runWndproc (initState 7)
      (((⟨false, 0, false, 0, true, ⟨false, 0, 1, false, ⟨0, 0, 0, 0⟩, true⟩, 1, 0⟩ : Oracle),
          Msg.nccreate (some ⟨[97], 1000⟩)) ::
        ([((⟨false, 0, false, 0, true, ⟨false, 0, 1, false, ⟨0, 0, 0, 0⟩, true⟩, 1, 0⟩ : Oracle),
            Msg.close)] ++
          [((⟨false, 0, false, 0, true, ⟨false, 0, 1, false, ⟨0, 0, 0, 0⟩, true⟩, 1, 0⟩ : Oracle),
            Msg.destroy)]))).freeCount = 1 :=
  ⟨by decide, by decide,
   (payload_reclaimed_exactly_once 1000 (by decide) 7 [97]
      ⟨false, 0, false, 0, true, ⟨false, 0, 1, false, ⟨0, 0, 0, 0⟩, true⟩, 1, 0⟩ rfl rfl
      ⟨false, 0, false, 0, true, ⟨false, 0, 1, false, ⟨0, 0, 0, 0⟩, true⟩, 1, 0⟩ rfl
      [(⟨false, 0, false, 0, true, ⟨false, 0, 1, false, ⟨0, 0, 0, 0⟩, true⟩, 1, 0⟩, Msg.close)]
      (by decide)).1.1⟩

/-- C8: a WM_PAINT dispatch is unaffected by the fill step's outcome — the
whole step (state and LRESULT) is identical whether FillRect reports failure
(return 0) or success (return 1) — the state is never changed, and the
callback returns the neutral reply 0 (whenever the paint cycle itself does
not abort in end_paint, in particular also when begin_paint fails). -/
theorem paint_fill_failure_neutral (st : SysState) (o : Oracle) :
    (window_procedure st { o with fillRet := 0 } Msg.paint =
      window_procedure st { o with fillRet := 1 } Msg.paint)
  ∧ ((window_procedure st o Msg.paint).st = st)
  ∧ (o.paint.endOk = true → (window_procedure st o Msg.paint).ret = some 0)
  ∧ (o.paint.beginFail = true → (window_procedure st o Msg.paint).ret = some 0) := by
  refine ⟨rfl, rfl, fun he => ?_, fun hb => ?_⟩
  · simp [window_procedure, do_some_painting_result_isSome _ _ he]
  · simp [window_procedure, do_some_painting, begin_paint, hb]

/-- Witness for C8 at a concrete state and oracle whose paint cycle ends
normally: the callback returns 0, and forcing the fill to fail yields the
identical step. -/
theorem paint_fill_failure_neutral_witness :
    ((⟨false, 0, false, 0, true, ⟨false, 0, 1, false, ⟨0, 0, 0, 0⟩, true⟩, 1, 0⟩ :
        Oracle).paint.endOk = true) ∧
    (window_procedure (initState 0)
      ⟨false, 0, false, 0, true, ⟨false, 0, 1, false, ⟨0, 0, 0, 0⟩, true⟩, 1, 0⟩
      Msg.paint).ret = some 0 ∧
    window_procedure (initState 0)
      { (⟨false, 0, false, 0, true, ⟨false, 0, 1, false, ⟨0, 0, 0, 0⟩, true⟩, 1, 0⟩ : Oracle)
        with fillRet := 0 } Msg.paint =
    window_procedure (initState 0)
      { (⟨false, 0, false, 0, true, ⟨false, 0, 1, false, ⟨0, 0, 0, 0⟩, true⟩, 1, 0⟩ : Oracle)
        with fillRet := 1 } Msg.paint :=
  ⟨rfl,
   (paint_fill_failure_neutral (initState 0)
      ⟨false, 0, false, 0, true, ⟨false, 0, 1, false, ⟨0, 0, 0, 0⟩, true⟩, 1, 0⟩).2.2.1 rfl,
   (paint_fill_failure_neutral (initState 0)
      ⟨false, 0, false, 0, true, ⟨false, 0, 1, false, ⟨0, 0, 0, 0⟩, true⟩, 1, 0⟩).1⟩

/-- C10: a WM_NCCREATE message whose CREATESTRUCTW pointer is null makes the
procedure return 0 — the creation-abort value — with the state (title and
user-data slot included) untouched; with a non-null pointer (and the title
set succeeding) the title is set from the creation parameters and the
procedure returns 1 exactly when the user-data store reports success, 0
exactly when it reports an error. -/
theorem nccreate_null_createstruct (st : SysState) (o : Oracle) (cs : CreateStructM) :
    (window_procedure st o (Msg.nccreate none) = ⟨st, some 0⟩)
  ∧ (o.setTextOk = true →
      (window_procedure st o (Msg.nccreate (some cs))).st.title = some cs.lpszName
      ∧ ((window_procedure st o (Msg.nccreate (some cs))).ret = some 1 ↔
          isOkE (set_window_userdata cs.lpCreateParams o.setFail o.setErr st.win).1 = true)
      ∧ ((window_procedure st o (Msg.nccreate (some cs))).ret = some 0 ↔
          isOkE (set_window_userdata cs.lpCreateParams o.setFail o.setErr st.win).1
            = false)) := by
  refine ⟨rfl, fun ht => ?_⟩
  cases hok : isOkE (set_window_userdata cs.lpCreateParams o.setFail o.setErr st.win).1 <;>
    simp [window_procedure, ht, hok]

/-- Witness for C10: a null CREATESTRUCTW leaves the concrete state untouched
and returns 0; a non-null one with a succeeding store sets the title. -/
theorem nccreate_null_createstruct_witness :
    window_procedure (initState 3)
      ⟨false, 0, false, 0, true, ⟨false, 0, 1, false, ⟨0, 0, 0, 0⟩, true⟩, 1, 0⟩
      (Msg.nccreate none) = ⟨initState 3, some 0⟩ ∧
    ((⟨false, 0, false, 0, true, ⟨false, 0, 1, false, ⟨0, 0, 0, 0⟩, true⟩, 1, 0⟩ :
        Oracle).setTextOk = true) ∧
    (window_procedure (initState 3)
      ⟨false, 0, false, 0, true, ⟨false, 0, 1, false, ⟨0, 0, 0, 0⟩, true⟩, 1, 0⟩
      (Msg.nccreate (some ⟨[104], 42⟩))).st.title = some [104] :=
  ⟨(nccreate_null_createstruct (initState 3)
      ⟨false, 0, false, 0, true, ⟨false, 0, 1, false, ⟨0, 0, 0, 0⟩, true⟩, 1, 0⟩
      ⟨[104], 42⟩).1,
   rfl,
   ((nccreate_null_createstruct (initState 3)
      ⟨false, 0, false, 0, true, ⟨false, 0, 1, false, ⟨0, 0, 0, 0⟩, true⟩, 1, 0⟩
      ⟨[104], 42⟩).2 rfl).1⟩
